import Mathlib

/-!
Verification of the Conversational RAG Orchestration Engine of the hmo-chatbot
repository against its natural-language specification.

The development shallowly embeds the decision logic of:
  * src/shared/monitoring.py      (ChatbotMonitoring: the metrics aggregator)
  * src/backend/retriever.py      (load_embeddings, cosine_similarity, retrieve_top_k)
  * src/backend/openai_utils.py   (get_response_from_llm, handle_collection_phase,
                                   handle_qa_phase, generate_success_message)
  * src/backend/main.py           (the /metrics read endpoint)
  * src/backend/function_definitions.py (the COLLECTION_FUNCTIONS schema)
  * src/backend/models.py         (ChatRequest / ChatResponse)

External capabilities (the hosted chat-completion and embedding calls, the file
system, `json.loads`) are modelled at their interfaces: each model function takes
the outcome of the external call as an explicit argument.  Python exceptions are
modelled with `Except`; the mutation of the process-wide metrics dictionary is
modelled by explicit state passing, and — where object identity matters — by a
small address/heap model.  Float arithmetic is idealised over ℝ (retrieval
scores) and ℚ (metrics averages); `0.7` stands for the float literal of the
source.  Where Lean total division (`x / 0 = 0`) stands in for the IEEE NaN the
source would produce, a comment marks it.
-/

namespace HmoChatbot

/-! ### A small JSON value model

`json.loads` is external; its possible outputs are modelled by the `Json`
inductive below, and each call site takes the parse outcome as an argument
(`Except Unit Json`, `.error ()` modelling a raised `json.JSONDecodeError`). -/

inductive Json where
  | null : Json
  | bool (b : Bool) : Json
  | num (q : ℚ) : Json
  | str (s : String) : Json
  | arr (items : List Json) : Json
  | obj (fields : List (String × Json)) : Json

/-- Field lookup on a JSON object (Python `dict` access / `.get`); `none` on a
non-object or a missing key.  Parsed JSON objects have no duplicate keys
(`json.loads` keeps the last occurrence), so first-match lookup is adequate. -/
def Json.get? : Json → String → Option Json
  | .obj fields, key => fields.lookup key
  | _, _ => none

/-! ### src/shared/monitoring.py — ChatbotMonitoring

The three aggregates of `ChatbotMonitoring.__init__` (lines 14-35).  Averages
are exact rationals; the source's floats follow the same recurrences. -/

structure LlmCallsMetrics where
  success : ℕ
  failed : ℕ
  total_time_ms : ℚ
  average_time_ms : ℚ
  deriving DecidableEq

structure RagQueriesMetrics where
  total : ℕ
  no_matches : ℕ
  average_similarity : ℚ
  deriving DecidableEq

structure PhaseStats where
  success : ℕ
  failed : ℕ
  deriving DecidableEq

structure ConversationMetrics where
  collection_phase : PhaseStats
  qa_phase : PhaseStats
  lang_he : ℕ
  lang_en : ℕ
  deriving DecidableEq

structure Metrics where
  llm_calls : LlmCallsMetrics
  rag_queries : RagQueriesMetrics
  conversation : ConversationMetrics
  deriving DecidableEq

/-- The zero-valued aggregate dictionary built by `ChatbotMonitoring.__init__`. -/
def initMetrics : Metrics :=
  ⟨⟨0, 0, 0, 0⟩, ⟨0, 0, 0⟩, ⟨⟨0, 0⟩, ⟨0, 0⟩, 0, 0⟩⟩

/-- `ChatbotMonitoring.log_llm_call` (monitoring.py lines 37-54): increments the
success/failed counter, accumulates total time and recomputes the mean over
the combined call count. -/
def log_llm_call (m : Metrics) (duration_ms : ℚ) (success : Bool) : Metrics :=
  let succ := if success then m.llm_calls.success + 1 else m.llm_calls.success
  let fail := if success then m.llm_calls.failed else m.llm_calls.failed + 1
  let total_time := m.llm_calls.total_time_ms + duration_ms
  let total_calls := succ + fail
  ⟨⟨succ, fail, total_time, total_time / (total_calls : ℚ)⟩, m.rag_queries, m.conversation⟩

/-- `ChatbotMonitoring.log_rag_query` (monitoring.py lines 56-74): increments
`total`, conditionally increments `no_matches`, and updates the running mean by
`(prev_avg * (n - 1) + similarity_score) / n` with `n` the updated total. -/
def log_rag_query (m : Metrics) (similarity_score : ℚ) (found_match : Bool) : Metrics :=
  let total := m.rag_queries.total + 1
  let no_matches := if found_match then m.rag_queries.no_matches else m.rag_queries.no_matches + 1
  let prev_avg := m.rag_queries.average_similarity
  let avg := (prev_avg * ((total : ℚ) - 1) + similarity_score) / (total : ℚ)
  ⟨m.llm_calls, ⟨total, no_matches, avg⟩, m.conversation⟩

/-! ### src/backend/main.py — the /metrics endpoint and object identity

Python dictionaries are mutable heap objects; `get_metrics` (main.py lines
112-118) puts `monitoring.metrics` itself — not a copy — into the response
value.  Object identity is modelled by addresses into a heap of metrics
dictionaries; the module-level `ChatbotMonitoring` instance's dictionary lives
at a fixed address. -/

abbrev Addr := ℕ

/-- The heap of live metrics dictionaries, addressed by object identity. -/
structure Heap where
  objs : Addr → Metrics

/-- The address of `monitoring.metrics`, the aggregator's live dictionary. -/
def monitoring_addr : Addr := 0

/-- `get_metrics` (main.py lines 112-118): the response's "metrics" value is
`monitoring.metrics` itself, i.e. the address of the live dictionary.  No copy
is made. -/
def get_metrics (_h : Heap) : Addr := monitoring_addr

/-- Mutation of the dictionary at an address (Python in-place update of the
object the address denotes). -/
def heapWrite (h : Heap) (a : Addr) (v : Metrics) : Heap :=
  ⟨fun x => if x = a then v else h.objs x⟩

/-- Read of the dictionary at an address. -/
def heapRead (h : Heap) (a : Addr) : Metrics :=
  h.objs a

/-! ### src/backend/retriever.py — load_embeddings

`load_embeddings` (retriever.py lines 47-62) runs
`[json.loads(line) for line in f]`.  The source file is modelled as
`Option (List (Option Json))`: `none` when `open` raises (missing/unreadable
file), otherwise the per-line `json.loads` outcomes in order (`none` for a line
that raises `json.JSONDecodeError`). -/

inductive LoadError where
  | ioError : LoadError
  | jsonDecodeError : LoadError
  deriving DecidableEq

/-- The list comprehension `[json.loads(line) for line in f]`: the first failing
line aborts the whole load. -/
def seqParsed : List (Option Json) → Option (List Json)
  | [] => some []
  | none :: _ => none
  | some j :: rest => (seqParsed rest).map (fun js => j :: js)

/-- `load_embeddings` (retriever.py lines 47-62): raises on an unreadable source
or a line that is not valid JSON, and otherwise stores every parsed record
as-is — no per-record shape validation happens here. -/
def load_embeddings (source : Option (List (Option Json))) : Except LoadError (List Json) :=
  match source with
  | none => .error .ioError
  | some lines =>
    match seqParsed lines with
    | none => .error .jsonDecodeError
    | some docs => .ok docs

/-- Modelled from the spec: the corpus record contract of spec §6 — each record
must carry a string `domain`, a string `text` and an `embedding` that is an
array of numbers.  The source performs no such check at load time; this
definition exists to compare the loaded records against the contract. -/
def isValidRecord (j : Json) : Bool :=
  match j.get? "domain", j.get? "text", j.get? "embedding" with
  | some (.str _), some (.str _), some (.arr items) =>
    items.all fun e => match e with | .num _ => true | _ => false
  | _, _, _ => false

/-! ### src/backend/retriever.py — cosine similarity and top-k retrieval

Embedding vectors are lists of reals.  `np.dot` is the sum of pointwise
products and `np.linalg.norm` the square root of the self dot product. -/

/-- `np.dot a b` for equal-length vectors: the sum of pointwise products. -/
def dotP (a b : List ℝ) : ℝ :=
  (List.zipWith (· * ·) a b).sum

/-- `np.linalg.norm a`: the Euclidean norm. -/
noncomputable def norm2 (a : List ℝ) : ℝ :=
  Real.sqrt (dotP a a)

/-- `cosine_similarity` (retriever.py lines 64-75): the single expression
`np.dot(a, b) / (np.linalg.norm(a) * np.linalg.norm(b))`.  The source contains
no conditional and no raise: the division is performed unconditionally.  When
either vector is the zero vector the denominator is `0`; there the source's
float arithmetic produces NaN (0.0/0.0) while Lean's total division yields `0` —
either way, no explicit failure occurs. -/
noncomputable def cosine_similarity (a b : List ℝ) : ℝ :=
  dotP a b / (norm2 a * norm2 b)

/-- The error kind the spec (§7) assigns to a zero-norm embedding. -/
inductive DegenerateVectorError where
  | degenerateVector : DegenerateVectorError
  deriving DecidableEq

/-- Modelled from the spec: the guarded cosine similarity the spec (§4.2, §7)
describes — detect a zero denominator explicitly and fail with
`DegenerateVectorError` instead of producing a NaN score.  This definition
follows the spec's words; the source (`cosine_similarity` above) has no such
branch.  It exists only to compare the two. -/
noncomputable def cosine_similarity_spec (a b : List ℝ) : Except DegenerateVectorError ℝ :=
  if norm2 a * norm2 b = 0 then .error .degenerateVector
  else .ok (dotP a b / (norm2 a * norm2 b))

/-- One corpus passage (spec §3): `{domain, text, embedding}`; identity is the
position in the store. -/
structure Passage where
  domain : String
  text : String
  embedding : List ℝ

/-- One scored document dictionary built by `retrieve_top_k` (retriever.py
lines 106-113): `{domain, text, score}`.  The `idx` field records the
passage's position in the store — the source keeps this information as the
position inside the Python list, and stability of Python's `sorted` is stated
through it (spec §3: identity = position). -/
structure ScoredDoc where
  idx : ℕ
  domain : String
  text : String
  score : ℝ

/-- `MIN_SIMILARITY_THRESHOLD` (retriever.py line 34). -/
def MIN_SIMILARITY_THRESHOLD : ℝ := 0.7

/-- `NO_MATCH_MESSAGE` (retriever.py line 35). -/
def NO_MATCH_MESSAGE : String :=
  "לא נמצא מידע רלוונטי לשאלה זו. אנא נסח את השאלה מחדש או שאל על נושא אחר."

/-- The scoring comprehension of `retrieve_top_k` (retriever.py lines 106-113):
one scored dictionary per stored document, in store order. -/
noncomputable def scoreDocs (query_vec : List ℝ) (docs : List Passage) : List ScoredDoc :=
  docs.enum.map fun p => ⟨p.1, p.2.domain, p.2.text, cosine_similarity query_vec p.2.embedding⟩

/-- Python `max` over the scores (retriever.py line 116): a left fold keeping
the larger value.  The `[]` case is unreachable — the caller errors out first,
mirroring the `ValueError` that `max([])` raises. -/
noncomputable def pyMaxScore : List ScoredDoc → ℝ
  | [] => 0
  | d :: ds => ds.foldl (fun m e => max m e.score) d.score

/-- The relevance filter of `retrieve_top_k` (retriever.py lines 119-122):
keep the documents whose score reaches `MIN_SIMILARITY_THRESHOLD`. -/
noncomputable def relevantOf (scored : List ScoredDoc) : List ScoredDoc :=
  scored.filter fun d => decide (MIN_SIMILARITY_THRESHOLD ≤ d.score)

/-- Python `sorted(relevant_docs, key=lambda x: x["score"], reverse=True)`
(retriever.py line 140): a stable descending sort by score.  Stable insertion
sort with the relation `b.score ≤ a.score` places each element before the first
already-placed element with a smaller-or-equal score, which is exactly the
stable descending order. -/
noncomputable def sortDesc (l : List ScoredDoc) : List ScoredDoc :=
  List.insertionSort (fun a b => b.score ≤ a.score) l

/-- The sentinel dictionary returned on the no-match path (retriever.py lines
133-138).  Its `idx` is irrelevant (it corresponds to no stored passage). -/
def noMatchDoc : ScoredDoc :=
  ⟨0, "no_match", NO_MATCH_MESSAGE, 0⟩

/-- Errors that propagate out of `retrieve_top_k`. -/
inductive RetrievalError where
  | embeddingError : RetrievalError
  | emptyStore : RetrievalError
  deriving DecidableEq

/-- One recorded MetricsAggregator operation.  `ragQuery` is
`monitoring.log_rag_query`, `llmCall` is `monitoring.log_llm_call`; the
operation list of a run holds every aggregator update that run performed, in
order, before returning or raising. -/
inductive MetricsOp where
  | ragQuery (similarity_score : ℝ) (found_match : Bool) : MetricsOp
  | llmCall (duration_ms : ℝ) (success : Bool) : MetricsOp

/-- True exactly for a `log_rag_query` operation. -/
def MetricsOp.isRagQuery : MetricsOp → Bool
  | .ragQuery _ _ => true
  | .llmCall _ _ => false

/-- `retrieve_top_k` (retriever.py lines 96-144).  The external embedding call
(`embed_text`) is taken as its outcome `embedResult` (`.error ()` when the
hosted call raised).  Behaviour:
  * embedding failure: the exception propagates (logger only — no aggregator
    update), modelled as `(.error .embeddingError, [])`;
  * empty store: `max([])` raises `ValueError` before any aggregator update;
  * otherwise `monitoring.log_rag_query(max_score, len(relevant) > 0, ...)` is
    recorded, then either the sentinel no-match dictionary or the first `k`
    documents of the stable descending sort are returned. -/
noncomputable def retrieve_top_k (embedResult : Except Unit (List ℝ)) (docs : List Passage)
    (k : ℕ) : Except RetrievalError (List ScoredDoc) × List MetricsOp :=
  match embedResult with
  | .error _ => (.error .embeddingError, [])
  | .ok query_vec =>
    let scored := scoreDocs query_vec docs
    if scored.isEmpty then (.error .emptyStore, [])
    else
      let max_score := pyMaxScore scored
      let relevant_docs := relevantOf scored
      let ops := [MetricsOp.ragQuery max_score (decide (0 < relevant_docs.length))]
      if relevant_docs.isEmpty then (.ok [noMatchDoc], ops)
      else (.ok ((sortDesc relevant_docs).take k), ops)

/-! ### src/backend/function_definitions.py — the COLLECTION_FUNCTIONS schema -/

/-- The pattern `^[0-9]{9}$` of the `id` and `card` fields. -/
def isNineDigits (s : String) : Bool :=
  s.length = 9 && s.toList.all Char.isDigit

/-- The `complete_data_collection` parameter schema (function_definitions.py
lines 2-53): all eight required fields present and each satisfying its own
constraint (9-digit `id` and `card`, closed enumerations for `gender`, `hmo`,
`tier` and `preferred_language`, integer `age` between 0 and 120, string
`name`). -/
def validProfile (j : Json) : Bool :=
  match j.get? "name", j.get? "id", j.get? "gender", j.get? "age",
      j.get? "hmo", j.get? "card", j.get? "tier", j.get? "preferred_language" with
  | some (.str _), some (.str id), some (.str gender), some (.num age),
      some (.str hmo), some (.str card), some (.str tier), some (.str lang) =>
    isNineDigits id &&
    (gender = "male" || gender = "female" || gender = "other") &&
    (age.den = 1 && 0 ≤ age && age ≤ 120) &&
    (hmo = "מכבי" || hmo = "מאוחדת" || hmo = "כללית") &&
    isNineDigits card &&
    (tier = "זהב" || tier = "כסף" || tier = "ארד") &&
    (lang = "he" || lang = "en")
  | _, _, _, _, _, _, _, _ => false

/-! ### src/backend/openai_utils.py — the two phase handlers -/

/-- The `function_call` part of a hosted-completion message.  `arguments` is
the raw JSON string as seen through `json.loads`: its parse outcome
(`.error ()` when `json.JSONDecodeError` would be raised). -/
structure FunctionCall where
  name : String
  arguments : Except Unit Json

/-- The message of the hosted completion's first choice
(`response.choices[0].message`). -/
structure CompletionMessage where
  content : Option String
  function_call : Option FunctionCall

/-- The plain dictionaries the handlers return.  `none` in `phase_transition`
or `user_info` means the key is absent from the dictionary. -/
structure PyDict where
  answer : Option String
  phase_transition : Option Bool
  user_info : Option Json

/-- Errors that propagate out of `get_response_from_llm` (all re-raised after a
`logger.error` record — never after an aggregator update). -/
inductive TurnError where
  | llmCallError : TurnError
  | attributeError : TurnError
  | retrieval (e : RetrievalError) : TurnError
  | indexError : TurnError

/-- `generate_success_message` (openai_utils.py lines 183-188). -/
def generate_success_message (language : String) : String :=
  if language = "en" then
    "Thank you! Your information has been collected successfully. I can now help you with questions about your health fund benefits."
  else
    "תודה רבה! המידע שלך נקלט בהצלחה. כעת אני יכול לעזור לך עם שאלות לגבי הזכויות שלך בקופת החולים."

/-- Python `message.content or success_message`: falls through to the right
operand when `content` is `None` or the empty string (both falsy). -/
def pyOr (a : Option String) (b : String) : String :=
  match a with
  | none => b
  | some s => if s = "" then b else s

/-- The fixed localized error text of the extraction-failure branch
(openai_utils.py line 135). -/
def COLLECTION_ERROR_MESSAGE : String := "אירעה שגיאה בעיבוד המידע. אנא נסה שוב."

/-- The `preferred_language` lookup `user_info.get("preferred_language", "he")`
feeding `generate_success_message`: only a string value `"en"` selects the
English message (any other value — missing key, other string, non-string —
compares unequal to `"en"` and yields the Hebrew one, like the default). -/
def lookupLang (fields : List (String × Json)) : String :=
  match (Json.obj fields).get? "preferred_language" with
  | some (.str s) => s
  | _ => "he"

/-- `handle_collection_phase` (openai_utils.py lines 88-143) from the hosted
completion's message onward (the completion call itself is handled by
`get_response_from_llm`).  If a function call named `complete_data_collection`
is present, its arguments are passed to `json.loads` and the parsed mapping is
returned as `user_info` with `phase_transition: True` — no validation of the
parsed fields happens; only `json.JSONDecodeError` is caught and turned into
the fixed error answer with `phase_transition: False`.  A parsed payload that
is not a dict raises `AttributeError` at the `user_info.keys()` call, which is
not caught.  Without a function call the model's free text is returned with
`phase_transition: False`. -/
def handle_collection_phase (msg : CompletionMessage) : Except TurnError PyDict :=
  match msg.function_call with
  | some fc =>
    if fc.name = "complete_data_collection" then
      match fc.arguments with
      | .ok (.obj fields) =>
        .ok ⟨some (pyOr msg.content (generate_success_message (lookupLang fields))),
          some true, some (.obj fields)⟩
      | .ok _ => .error .attributeError
      | .error _ => .ok ⟨some COLLECTION_ERROR_MESSAGE, some false, none⟩
    else .ok ⟨msg.content, some false, none⟩
  | none => .ok ⟨msg.content, some false, none⟩

/-- `handle_qa_phase` (openai_utils.py lines 145-181).  Runs `retrieve_top_k`;
if the first returned document's domain is `"no_match"` the fixed fallback text
is returned at once — the hosted QA completion is never invoked (third
component: the number of chat-completion calls made).  Otherwise one completion
call is made with the retrieved context and its text is returned with
`phase_transition: False`.  `qaCompletion` is the outcome of that external
call. -/
noncomputable def handle_qa_phase (embedResult : Except Unit (List ℝ)) (docs : List Passage)
    (k : ℕ) (qaCompletion : Except Unit String) :
    Except TurnError PyDict × List MetricsOp × ℕ :=
  match retrieve_top_k embedResult docs k with
  | (.error e, ops) => (.error (.retrieval e), ops, 0)
  | (.ok [], ops) => (.error .indexError, ops, 0)
  | (.ok (d0 :: _), ops) =>
    if d0.domain = "no_match" then (.ok ⟨some d0.text, none, none⟩, ops, 0)
    else
      match qaCompletion with
      | .error _ => (.error .llmCallError, ops, 1)
      | .ok text => (.ok ⟨some text, some false, none⟩, ops, 1)

/-- The inbound turn (models.py lines 4-11). -/
structure ChatRequest where
  user_info : List (String × Json)
  history : List (String × String)
  question : String
  language : String
  phase : String
  hmo : Option String
  tier : Option String

/-- The outcomes of the external calls a single turn may make: the
collection-phase completion, the query embedding, and the QA completion. -/
structure TurnOracles where
  collectionMsg : Except Unit CompletionMessage
  embedResult : Except Unit (List ℝ)
  qaCompletion : Except Unit String

/-- `get_response_from_llm` (openai_utils.py lines 71-86): dispatches on the
request's phase; any exception is re-raised after a `logger.error` record (no
aggregator update).  The collection branch performs its one completion call
(counted) before inspecting the message. -/
noncomputable def get_response_from_llm (req : ChatRequest) (docs : List Passage) (k : ℕ)
    (o : TurnOracles) : Except TurnError PyDict × List MetricsOp × ℕ :=
  if req.phase = "collection" then
    match o.collectionMsg with
    | .error _ => (.error .llmCallError, [], 1)
    | .ok msg => (handle_collection_phase msg, [], 1)
  else handle_qa_phase o.embedResult docs k o.qaCompletion

/-- `ChatResponse` (models.py lines 13-16): `answer` is required,
`phase_transition` defaults to `False` when absent, `user_info` to `None`. -/
structure ChatResponse where
  answer : String
  phase_transition : Bool
  user_info : Option Json

/-- Pydantic construction `ChatResponse(**result)` (main.py line 80): fails
when `answer` is missing or `None`, and fills the declared defaults for the
absent optional keys. -/
def toChatResponse (d : PyDict) : Option ChatResponse :=
  match d.answer with
  | none => none
  | some a => some ⟨a, d.phase_transition.getD false, d.user_info⟩

/-! ### Auxiliary definitions used by the statements and witnesses -/

/-- The order a stable descending sort by score realises on store-indexed
documents: strictly larger score first, ties in store order. -/
def lexDesc (a b : ScoredDoc) : Prop :=
  b.score < a.score ∨ (a.score = b.score ∧ a.idx < b.idx)

/-- Concrete passage: unit vector along the first axis. -/
def dentalDoc : Passage := ⟨"dental", "dental benefits text", [1, 0]⟩

/-- Concrete passage: unit vector along the second axis. -/
def optomDoc : Passage := ⟨"optometry", "optometry benefits text", [0, 1]⟩

/-- Concrete passage whose `domain` string happens to be `"no_match"`. -/
def noMatchNamedPassage : Passage := ⟨"no_match", "a genuine corpus passage", [1, 0]⟩

/-- The fields of a structured payload with all eight keys present but a
10-digit `id` (violating the `^[0-9]{9}$` pattern of the schema). -/
def badFields : List (String × Json) :=
  [("name", .str "Dana Levi"), ("id", .str "0123456789"), ("gender", .str "female"),
    ("age", .num 30), ("hmo", .str "מכבי"), ("card", .str "123456789"),
    ("tier", .str "זהב"), ("preferred_language", .str "he")]

/-- A completion message carrying the invalid payload as a well-formed JSON
function-call argument. -/
def badMsg : CompletionMessage :=
  ⟨none, some ⟨"complete_data_collection", .ok (.obj badFields)⟩⟩

/-- A concrete QA-phase request. -/
def qaReq : ChatRequest := ⟨[], [], "how much is dental care", "he", "qa", none, none⟩

/-- Concrete oracle outcomes: query embedding `[1, 0]`, QA completion text. -/
def qaOracles : TurnOracles := ⟨.error (), .ok [1, 0], .ok "llm answer"⟩

/-- A sequence of `log_rag_query` calls applied from the zero-initialised
aggregate: `inputs` holds the `(similarity_score, found_match)` argument pairs
in call order. -/
def ragFold (inputs : List (ℚ × Bool)) : Metrics :=
  inputs.foldl (fun m p => log_rag_query m p.1 p.2) initMetrics

/-- A heap whose every object is the zero aggregate. -/
def heap0 : Heap := ⟨fun _ => initMetrics⟩

/-- A metrics value distinct from the zero aggregate. -/
def metrics5 : Metrics := ⟨⟨0, 0, 0, 0⟩, ⟨5, 0, 0⟩, ⟨⟨0, 0⟩, ⟨0, 0⟩, 0, 0⟩⟩

/-! ### Helper lemmas: dot products and norms -/

theorem dotP_cons (x y : ℝ) (xs ys : List ℝ) :
    dotP (x :: xs) (y :: ys) = x * y + dotP xs ys := by
  simp [dotP]

theorem dotP_self_nonneg (a : List ℝ) : 0 ≤ dotP a a := by
  induction a with
  | nil => simp [dotP]
  | cons x xs ih =>
    rw [dotP_cons]
    have hx := mul_self_nonneg x
    linarith

theorem dotP_self_pos (a : List ℝ) (h : ∃ x ∈ a, x ≠ 0) : 0 < dotP a a := by
  induction a with
  | nil => obtain ⟨x, hx, _⟩ := h; simp at hx
  | cons y ys ih =>
    rw [dotP_cons]
    obtain ⟨x, hx, hxne⟩ := h
    rcases List.mem_cons.mp hx with rfl | hmem
    · have h1 : 0 < x * x := mul_self_pos.mpr hxne
      have h2 := dotP_self_nonneg ys
      linarith
    · have h1 := mul_self_nonneg y
      have h2 := ih ⟨x, hmem, hxne⟩
      linarith

theorem norm2_pos (a : List ℝ) (h : ∃ x ∈ a, x ≠ 0) : 0 < norm2 a :=
  Real.sqrt_pos.mpr (dotP_self_pos a h)

/-! ### Helper lemmas: store indices and the stable descending sort -/

theorem enumFrom_fst_le {α : Type _} :
    ∀ (l : List α) (n : ℕ) (p : ℕ × α), p ∈ l.enumFrom n → n ≤ p.1
  | [], _, _, h => by simp [List.enumFrom] at h
  | x :: xs, n, p, h => by
    rw [List.enumFrom] at h
    rcases List.mem_cons.mp h with rfl | hmem
    · exact le_refl n
    · exact Nat.le_of_succ_le (enumFrom_fst_le xs (n + 1) p hmem)

theorem pairwise_fst_lt_enumFrom {α : Type _} :
    ∀ (l : List α) (n : ℕ), (l.enumFrom n).Pairwise (fun p q => p.1 < q.1)
  | [], _ => by simp [List.enumFrom]
  | x :: xs, n => by
    rw [List.enumFrom]
    refine List.Pairwise.cons ?_ (pairwise_fst_lt_enumFrom xs (n + 1))
    intro q hq
    exact Nat.lt_of_lt_of_le (Nat.lt_succ_self n) (enumFrom_fst_le xs (n + 1) q hq)

theorem pairwise_idx_scoreDocs (qv : List ℝ) (docs : List Passage) :
    (scoreDocs qv docs).Pairwise (fun a b => a.idx < b.idx) := by
  simp only [scoreDocs]
  exact List.Pairwise.map _ (fun a b hab => hab) (pairwise_fst_lt_enumFrom docs 0)

theorem pairwise_lex_orderedInsert (x : ScoredDoc) (l : List ScoredDoc)
    (hl : l.Pairwise lexDesc) (hidx : ∀ y ∈ l, x.idx < y.idx) :
    (List.orderedInsert (fun a b => b.score ≤ a.score) x l).Pairwise lexDesc := by
  induction l with
  | nil => simp
  | cons y ys ih =>
    obtain ⟨hy, hys⟩ := List.pairwise_cons.mp hl
    by_cases hxy : y.score ≤ x.score
    · rw [List.orderedInsert, if_pos hxy]
      refine List.Pairwise.cons ?_ hl
      intro z hz
      have hzx : z.score ≤ x.score := by
        rcases List.mem_cons.mp hz with rfl | hmem
        · exact hxy
        · rcases hy z hmem with hlt | ⟨heq, _⟩
          · exact le_trans (le_of_lt hlt) hxy
          · exact le_trans (le_of_eq heq.symm) hxy
      rcases lt_or_eq_of_le hzx with hlt | heq
      · exact Or.inl hlt
      · exact Or.inr ⟨heq.symm, hidx z hz⟩
    · rw [List.orderedInsert, if_neg hxy]
      have hyx : x.score < y.score := lt_of_not_le hxy
      refine List.Pairwise.cons ?_ (ih hys (fun z hz => hidx z (List.mem_cons_of_mem y hz)))
      intro z hz
      rcases (List.mem_orderedInsert _).mp hz with rfl | hmem
      · exact Or.inl hyx
      · exact hy z hmem

theorem pairwise_lex_sortDesc (l : List ScoredDoc)
    (h : l.Pairwise (fun a b => a.idx < b.idx)) : (sortDesc l).Pairwise lexDesc := by
  induction l with
  | nil => simp [sortDesc]
  | cons x xs ih =>
    obtain ⟨hx, hxs⟩ := List.pairwise_cons.mp h
    rw [sortDesc, List.insertionSort]
    refine pairwise_lex_orderedInsert x _ (ih hxs) ?_
    intro y hy
    exact hx y ((List.perm_insertionSort _ xs).mem_iff.mp hy)

/-! ### Helper lemmas: unfolding retrieve_top_k on the three regular paths -/

theorem scoreDocs_length (qv : List ℝ) (docs : List Passage) :
    (scoreDocs qv docs).length = docs.length := by
  simp [scoreDocs]

theorem scoreDocs_ne_nil (qv : List ℝ) (docs : List Passage) (h : docs ≠ []) :
    scoreDocs qv docs ≠ [] := by
  intro hnil
  exact h (List.length_eq_zero.mp (by rw [← scoreDocs_length qv docs, hnil]; rfl))

theorem retrieve_top_k_no_match (qv : List ℝ) (docs : List Passage) (k : ℕ)
    (hne : docs ≠ []) (hrel : relevantOf (scoreDocs qv docs) = []) :
    retrieve_top_k (.ok qv) docs k =
      (.ok [noMatchDoc], [MetricsOp.ragQuery (pyMaxScore (scoreDocs qv docs)) false]) := by
  have h1 : ¬ (scoreDocs qv docs).isEmpty = true := by
    rw [List.isEmpty_iff]; exact scoreDocs_ne_nil qv docs hne
  simp only [retrieve_top_k]
  rw [if_neg h1, hrel]
  simp

theorem retrieve_top_k_matched (qv : List ℝ) (docs : List Passage) (k : ℕ)
    (hrel : relevantOf (scoreDocs qv docs) ≠ []) :
    retrieve_top_k (.ok qv) docs k =
      (.ok ((sortDesc (relevantOf (scoreDocs qv docs))).take k),
       [MetricsOp.ragQuery (pyMaxScore (scoreDocs qv docs)) true]) := by
  have hne : scoreDocs qv docs ≠ [] := by
    intro hnil
    exact hrel (by rw [hnil]; rfl)
  have h1 : ¬ (scoreDocs qv docs).isEmpty = true := by
    rw [List.isEmpty_iff]; exact hne
  have h2 : ¬ (relevantOf (scoreDocs qv docs)).isEmpty = true := by
    rw [List.isEmpty_iff]; exact hrel
  have h3 : decide (0 < (relevantOf (scoreDocs qv docs)).length) = true :=
    decide_eq_true (List.length_pos.mpr hrel)
  simp only [retrieve_top_k]
  rw [if_neg h1, if_neg h2, h3]

/-- On an embedding failure the exception propagates with no aggregator
operation at all (retriever.py lines 101-103 and 142-144). -/
theorem retrieve_top_k_embed_error (docs : List Passage) (k : ℕ) :
    retrieve_top_k (.error ()) docs k = (.error .embeddingError, []) := rfl

/-- Every aggregator operation `retrieve_top_k` ever performs is a
`log_rag_query` — `log_llm_call` is not invoked on this path. -/
theorem retrieve_ops_rag (e : Except Unit (List ℝ)) (docs : List Passage) (k : ℕ) :
    ((retrieve_top_k e docs k).2).all MetricsOp.isRagQuery = true := by
  rcases e with ⟨⟩ | qv
  · rfl
  · simp only [retrieve_top_k]
    by_cases h1 : (scoreDocs qv docs).isEmpty = true
    · rw [if_pos h1]; rfl
    · rw [if_neg h1]
      by_cases h2 : (relevantOf (scoreDocs qv docs)).isEmpty = true
      · rw [if_pos h2]; rfl
      · rw [if_neg h2]; rfl

/-- The QA handler records exactly the aggregator operations of its retrieval
call — it performs none of its own. -/
theorem handle_qa_ops (e : Except Unit (List ℝ)) (docs : List Passage) (k : ℕ)
    (c : Except Unit String) :
    (handle_qa_phase e docs k c).2.1 = (retrieve_top_k e docs k).2 := by
  unfold handle_qa_phase
  split
  · next heq => rw [heq]
  · next heq => rw [heq]
  · next d0 rest ops heq =>
    rw [heq]
    split
    · rfl
    · split <;> rfl

/-- Whatever dictionary the QA handler returns carries no `user_info` and
never sets `phase_transition` to `True`. -/
theorem handle_qa_no_transition (e : Except Unit (List ℝ)) (docs : List Passage) (k : ℕ)
    (c : Except Unit String) (d : PyDict)
    (hok : (handle_qa_phase e docs k c).1 = .ok d) :
    d.phase_transition ≠ some true ∧ d.user_info = none := by
  unfold handle_qa_phase at hok
  split at hok
  · simp at hok
  · simp at hok
  · next d0 rest ops heq =>
    split at hok
    · simp at hok
      subst hok
      exact ⟨by simp, rfl⟩
    · split at hok
      · simp at hok
      · simp at hok
        subst hok
        exact ⟨by simp, rfl⟩

/-- The no-match short circuit of `handle_qa_phase` (openai_utils.py lines
153-159): when nothing clears the threshold the fixed fallback text is the
whole answer, a single zero-match rag observation is recorded, and no QA
completion call happens. -/
theorem handle_qa_no_match (qv : List ℝ) (docs : List Passage) (k : ℕ)
    (c : Except Unit String) (hne : docs ≠ [])
    (hrel : relevantOf (scoreDocs qv docs) = []) :
    handle_qa_phase (.ok qv) docs k c =
      (.ok ⟨some NO_MATCH_MESSAGE, none, none⟩,
       [MetricsOp.ragQuery (pyMaxScore (scoreDocs qv docs)) false], 0) := by
  unfold handle_qa_phase
  rw [retrieve_top_k_no_match qv docs k hne hrel]
  rfl

/-! ### Helper lemmas: the load model -/

theorem seqParsed_map_some (recs : List Json) : seqParsed (recs.map some) = some recs := by
  induction recs with
  | nil => rfl
  | cons j js ih => simp [seqParsed, ih]

theorem seqParsed_has_none (pre post : List (Option Json)) :
    seqParsed (pre ++ none :: post) = none := by
  induction pre with
  | nil => rfl
  | cons a pre ih =>
    cases a with
    | none => rfl
    | some j => simp [seqParsed, ih]

/-! ### Helper lemmas: the running mean of log_rag_query -/

theorem ragFold_invariant (inputs : List (ℚ × Bool)) :
    (ragFold inputs).rag_queries.total = inputs.length ∧
    (ragFold inputs).rag_queries.average_similarity * (inputs.length : ℚ) =
      (inputs.map Prod.fst).sum := by
  induction inputs using List.reverseRecOn with
  | nil => simp [ragFold, initMetrics]
  | append_singleton l x ih =>
    obtain ⟨h1, h2⟩ := ih
    have hfold : ragFold (l ++ [x]) = log_rag_query (ragFold l) x.1 x.2 := by
      simp [ragFold, List.foldl_append]
    have hnz : ((l.length : ℚ) + 1) ≠ 0 := by positivity
    constructor
    · rw [hfold]
      simp [log_rag_query, h1]
    · rw [hfold]
      simp only [log_rag_query, h1, List.length_append, List.map_append, List.sum_append,
        List.length_singleton, List.map_cons, List.map_nil, List.sum_cons, List.sum_nil]
      push_cast
      rw [div_mul_cancel₀ _ hnz]
      have : (ragFold l).rag_queries.average_similarity * ((l.length : ℚ) + 1 - 1) =
          (l.map Prod.fst).sum := by
        rw [add_sub_cancel_right]
        exact h2
      linarith [this]

/-! ### Helper lemmas: concrete evaluations used by the witnesses -/

theorem dotP_unit_same : dotP [(1 : ℝ), 0] [1, 0] = 1 := by
  rw [dotP_cons, dotP_cons]
  norm_num [dotP]

theorem dotP_unit_orth : dotP [(1 : ℝ), 0] [0, 1] = 0 := by
  rw [dotP_cons, dotP_cons]
  norm_num [dotP]

theorem dotP_unit_snd : dotP [(0 : ℝ), 1] [0, 1] = 1 := by
  rw [dotP_cons, dotP_cons]
  norm_num [dotP]

theorem norm2_unit_fst : norm2 [(1 : ℝ), 0] = 1 := by
  rw [norm2, dotP_unit_same, Real.sqrt_one]

theorem norm2_unit_snd : norm2 [(0 : ℝ), 1] = 1 := by
  rw [norm2, dotP_unit_snd, Real.sqrt_one]

theorem cosine_unit_same : cosine_similarity [(1 : ℝ), 0] [1, 0] = 1 := by
  rw [cosine_similarity, dotP_unit_same, norm2_unit_fst]
  norm_num

theorem cosine_unit_orth : cosine_similarity [(1 : ℝ), 0] [0, 1] = 0 := by
  rw [cosine_similarity, dotP_unit_orth, zero_div]

theorem scoreDocs_optom :
    scoreDocs [1, 0] [optomDoc] = [⟨0, "optometry", "optometry benefits text", 0⟩] := by
  have h : scoreDocs [1, 0] [optomDoc] =
      [⟨0, "optometry", "optometry benefits text", cosine_similarity [1, 0] [0, 1]⟩] := rfl
  rw [h, cosine_unit_orth]

theorem relevant_optom : relevantOf (scoreDocs [1, 0] [optomDoc]) = [] := by
  rw [scoreDocs_optom]
  norm_num [relevantOf, List.filter_cons, MIN_SIMILARITY_THRESHOLD]

theorem scoreDocs_pair :
    scoreDocs [1, 0] [dentalDoc, optomDoc] =
      [⟨0, "dental", "dental benefits text", 1⟩,
       ⟨1, "optometry", "optometry benefits text", 0⟩] := by
  have h : scoreDocs [1, 0] [dentalDoc, optomDoc] =
      [⟨0, "dental", "dental benefits text", cosine_similarity [1, 0] [1, 0]⟩,
       ⟨1, "optometry", "optometry benefits text", cosine_similarity [1, 0] [0, 1]⟩] := rfl
  rw [h, cosine_unit_same, cosine_unit_orth]

theorem relevant_pair :
    relevantOf (scoreDocs [1, 0] [dentalDoc, optomDoc]) =
      [⟨0, "dental", "dental benefits text", 1⟩] := by
  rw [scoreDocs_pair]
  norm_num [relevantOf, List.filter_cons, MIN_SIMILARITY_THRESHOLD]

theorem scoreDocs_fake :
    scoreDocs [1, 0] [noMatchNamedPassage] = [⟨0, "no_match", "a genuine corpus passage", 1⟩] := by
  have h : scoreDocs [1, 0] [noMatchNamedPassage] =
      [⟨0, "no_match", "a genuine corpus passage", cosine_similarity [1, 0] [1, 0]⟩] := rfl
  rw [h, cosine_unit_same]

theorem relevant_fake :
    relevantOf (scoreDocs [1, 0] [noMatchNamedPassage]) =
      [⟨0, "no_match", "a genuine corpus passage", 1⟩] := by
  rw [scoreDocs_fake]
  norm_num [relevantOf, List.filter_cons, MIN_SIMILARITY_THRESHOLD]

theorem retrieve_fake :
    retrieve_top_k (.ok [1, 0]) [noMatchNamedPassage] 2 =
      (.ok [⟨0, "no_match", "a genuine corpus passage", 1⟩],
       [MetricsOp.ragQuery (pyMaxScore (scoreDocs [1, 0] [noMatchNamedPassage])) true]) := by
  rw [retrieve_top_k_matched _ _ _ (by rw [relevant_fake]; simp), relevant_fake]
  rfl

theorem get_response_qa_no_match :
    get_response_from_llm qaReq [optomDoc] 2 qaOracles =
      (.ok ⟨some NO_MATCH_MESSAGE, none, none⟩,
       [MetricsOp.ragQuery (pyMaxScore (scoreDocs [1, 0] [optomDoc])) false], 0) := by
  rw [get_response_from_llm, if_neg (by decide : ¬ qaReq.phase = "collection")]
  exact handle_qa_no_match [1, 0] [optomDoc] 2 (.ok "llm answer") (by simp) relevant_optom

/-! ### The claims -/

/-- C1 (amended): in `handle_collection_phase` a structured payload tagged
`complete_data_collection` is only parsed as JSON and never validated against
the ProfileRecord schema before its fields are trusted: any payload parsing to
a JSON object — even one violating the schema's constraints, such as a
10-digit id — yields `phase_transition: True` with `user_info` exactly the
parsed mapping; only a JSON parse failure (`json.JSONDecodeError`) yields the
fixed extraction-failure answer with `phase_transition: False`, and the
conversation then remains in the collection phase. -/
theorem C1_no_schema_validation :
    (∀ (msg : CompletionMessage) (fc : FunctionCall) (fields : List (String × Json)),
      msg.function_call = some fc → fc.name = "complete_data_collection" →
      fc.arguments = .ok (.obj fields) → validProfile (.obj fields) = false →
      handle_collection_phase msg =
        .ok ⟨some (pyOr msg.content (generate_success_message (lookupLang fields))),
          some true, some (.obj fields)⟩) ∧
    (∀ (msg : CompletionMessage) (fc : FunctionCall),
      msg.function_call = some fc → fc.name = "complete_data_collection" →
      fc.arguments = .error () →
      handle_collection_phase msg = .ok ⟨some COLLECTION_ERROR_MESSAGE, some false, none⟩) := by
  constructor
  · intro msg fc fields hfc hname hargs _
    simp [handle_collection_phase, hfc, hname, hargs]
  · intro msg fc hfc hname hargs
    simp [handle_collection_phase, hfc, hname, hargs]

/-- C1 witness: the concrete invalid payload `badFields` (10-digit id) is
rejected by the schema yet accepted by the handler with a phase transition. -/
theorem C1_no_schema_validation_witness :
    validProfile (.obj badFields) = false ∧
    handle_collection_phase badMsg =
      .ok ⟨some (pyOr badMsg.content (generate_success_message (lookupLang badFields))),
        some true, some (.obj badFields)⟩ :=
  ⟨by decide,
    C1_no_schema_validation.1 badMsg ⟨"complete_data_collection", .ok (.obj badFields)⟩
      badFields rfl rfl rfl (by decide)⟩

/-- C1 counterexample: the claim says a payload whose id has 10 digits yields
`ExtractionFailed` with `phase_transition` false; on `badMsg` the code instead
returns the success message with `phase_transition: True` and the unvalidated
payload as `user_info`. -/
theorem C1_no_schema_validation_cex :
    validProfile (.obj badFields) = false ∧
    handle_collection_phase badMsg =
      .ok ⟨some (generate_success_message "he"), some true, some (.obj badFields)⟩ :=
  ⟨by decide, rfl⟩

/-- C2 (confirmed): on a QA-phase turn where every scored passage falls below
the relevance threshold, the handler's answer is exactly the fixed no-match
message, no QA completion call is made (call count 0), the single recorded
aggregator operation is a zero-match rag observation, and the resulting
`ChatResponse` has `phase_transition = False` (the key is absent and pydantic
fills the declared default). -/
theorem C2_no_match_short_circuit :
    (∀ (qv : List ℝ) (docs : List Passage) (k : ℕ) (completion : Except Unit String),
      docs ≠ [] →
      (∀ d ∈ scoreDocs qv docs, d.score < MIN_SIMILARITY_THRESHOLD) →
      handle_qa_phase (.ok qv) docs k completion =
        (.ok ⟨some NO_MATCH_MESSAGE, none, none⟩,
         [MetricsOp.ragQuery (pyMaxScore (scoreDocs qv docs)) false], 0)) ∧
    toChatResponse ⟨some NO_MATCH_MESSAGE, none, none⟩ =
      some ⟨NO_MATCH_MESSAGE, false, none⟩ := by
  refine ⟨?_, rfl⟩
  intro qv docs k completion hne hlow
  have hrel : relevantOf (scoreDocs qv docs) = [] := by
    refine List.filter_eq_nil_iff.mpr ?_
    intro d hd
    simp only [decide_eq_true_eq]
    exact not_le.mpr (hlow d hd)
  exact handle_qa_no_match qv docs k completion hne hrel

/-- C2 witness: a store holding one passage orthogonal to the query embedding
scores 0 < 0.7 and triggers the short circuit. -/
theorem C2_no_match_short_circuit_witness :
    handle_qa_phase (.ok [1, 0]) [optomDoc] 2 (.ok "llm answer") =
      (.ok ⟨some NO_MATCH_MESSAGE, none, none⟩,
       [MetricsOp.ragQuery (pyMaxScore (scoreDocs [1, 0] [optomDoc])) false], 0) :=
  C2_no_match_short_circuit.1 [1, 0] [optomDoc] 2 (.ok "llm answer") (by simp)
    (by rw [scoreDocs_optom]
        intro d hd
        simp only [List.mem_singleton] at hd
        subst hd
        norm_num [MIN_SIMILARITY_THRESHOLD])

/-- C3 (amended): `cosine_similarity` applies `(a·b)/(‖a‖·‖b‖)`
unconditionally and contains no zero-vector guard: there is no explicit
failure branch.  For vectors each containing a nonzero entry the denominator
is nonzero and the code agrees with the guarded version the spec describes;
on a zero vector the denominator is zero and the code divides anyway (a NaN
score in the implementation's float arithmetic) — see the counterexample. -/
theorem C3_unguarded_cosine (a b : List ℝ)
    (ha : ∃ x ∈ a, x ≠ 0) (hb : ∃ y ∈ b, y ≠ 0) :
    norm2 a * norm2 b ≠ 0 ∧
    cosine_similarity a b = dotP a b / (norm2 a * norm2 b) ∧
    cosine_similarity_spec a b = .ok (cosine_similarity a b) := by
  have hna := norm2_pos a ha
  have hnb := norm2_pos b hb
  have hprod : norm2 a * norm2 b ≠ 0 := ne_of_gt (mul_pos hna hnb)
  refine ⟨hprod, rfl, ?_⟩
  rw [cosine_similarity_spec, if_neg hprod, cosine_similarity]

/-- C3 witness: two concrete non-zero vectors. -/
theorem C3_unguarded_cosine_witness :
    norm2 [(1 : ℝ), 0] * norm2 [(0 : ℝ), 1] ≠ 0 ∧
    cosine_similarity [(1 : ℝ), 0] [0, 1] =
      dotP [(1 : ℝ), 0] [0, 1] / (norm2 [(1 : ℝ), 0] * norm2 [(0 : ℝ), 1]) ∧
    cosine_similarity_spec [(1 : ℝ), 0] [0, 1] = .ok (cosine_similarity [(1 : ℝ), 0] [0, 1]) :=
  C3_unguarded_cosine [1, 0] [0, 1] ⟨1, by simp, one_ne_zero⟩ ⟨1, by simp, one_ne_zero⟩

/-- C3 counterexample: on the zero vector the guard the claim describes would
fail with `DegenerateVectorError`, but the source function performs the
division with a zero denominator instead (NaN in the implementation; Lean's
total division renders the same expression with denominator 0). -/
theorem C3_unguarded_cosine_cex :
    cosine_similarity_spec [(0 : ℝ), 0] [1, 0] = .error .degenerateVector ∧
    cosine_similarity [(0 : ℝ), 0] [1, 0] = dotP [(0 : ℝ), 0] [1, 0] / 0 := by
  have hd : dotP [(0 : ℝ), 0] [0, 0] = 0 := by
    rw [dotP_cons, dotP_cons]
    norm_num [dotP]
  have hz : norm2 [(0 : ℝ), 0] = 0 := by
    rw [norm2, hd, Real.sqrt_zero]
  have hprod : norm2 [(0 : ℝ), 0] * norm2 [(1 : ℝ), 0] = 0 := by
    rw [hz, zero_mul]
  constructor
  · rw [cosine_similarity_spec, if_pos hprod]
  · rw [cosine_similarity, hprod]

/-- C4 (confirmed): whenever at least one passage clears the threshold,
`retrieve_top_k` succeeds and returns at most `k` documents, pairwise ordered
by strictly decreasing score with ties in store order (the stable descending
sort), and when `k` is at least the number of passages clearing the threshold
the result is a permutation of exactly those passages — no padding, no
error. -/
theorem C4_topk_sorted_stable (qv : List ℝ) (docs : List Passage) (k : ℕ)
    (_hk : 1 ≤ k) (hrel : relevantOf (scoreDocs qv docs) ≠ []) :
    ∃ res ops, retrieve_top_k (.ok qv) docs k = (.ok res, ops) ∧
      res.length ≤ k ∧
      res.Pairwise lexDesc ∧
      ((relevantOf (scoreDocs qv docs)).length ≤ k →
        List.Perm res (relevantOf (scoreDocs qv docs))) := by
  refine ⟨(sortDesc (relevantOf (scoreDocs qv docs))).take k,
    [MetricsOp.ragQuery (pyMaxScore (scoreDocs qv docs)) true],
    retrieve_top_k_matched qv docs k hrel, ?_, ?_, ?_⟩
  · rw [List.length_take]
    exact min_le_left _ _
  · have hidx : (relevantOf (scoreDocs qv docs)).Pairwise (fun a b => a.idx < b.idx) :=
      (pairwise_idx_scoreDocs qv docs).sublist (List.filter_sublist _)
    exact (pairwise_lex_sortDesc _ hidx).sublist (List.take_sublist _ _)
  · intro hlen
    have hl : (sortDesc (relevantOf (scoreDocs qv docs))).length =
        (relevantOf (scoreDocs qv docs)).length := by
      rw [sortDesc, List.length_insertionSort]
    rw [List.take_of_length_le (by rw [hl]; exact hlen)]
    exact List.perm_insertionSort _ _

/-- C4 witness: the spec §8 scenario — two orthogonal unit passages, query
along the first axis, `k = 1`. -/
theorem C4_topk_sorted_stable_witness :
    ∃ res ops, retrieve_top_k (.ok [1, 0]) [dentalDoc, optomDoc] 1 = (.ok res, ops) ∧
      res.length ≤ 1 ∧
      res.Pairwise lexDesc ∧
      ((relevantOf (scoreDocs [1, 0] [dentalDoc, optomDoc])).length ≤ 1 →
        List.Perm res (relevantOf (scoreDocs [1, 0] [dentalDoc, optomDoc]))) :=
  C4_topk_sorted_stable [1, 0] [dentalDoc, optomDoc] 1 (le_refl 1)
    (by rw [relevant_pair]; simp)

/-- C5 (amended): upstream failures propagate out of `retrieve_top_k` and
`get_response_from_llm` after only a `logger.error` record — the
MetricsAggregator is never updated with a failure outcome on those paths: an
embedding failure propagates with an empty aggregator-operation list, and
every aggregator operation these call paths ever perform is a `log_rag_query`
observation (recorded only when embedding and scoring succeed), never a
`log_llm_call` success/failure record. -/
theorem C5_no_failure_metrics :
    (∀ (docs : List Passage) (k : ℕ),
      retrieve_top_k (.error ()) docs k = (.error .embeddingError, [])) ∧
    (∀ (req : ChatRequest) (docs : List Passage) (k : ℕ) (o : TurnOracles),
      ((get_response_from_llm req docs k o).2.1).all MetricsOp.isRagQuery = true) := by
  constructor
  · intro docs k
    exact retrieve_top_k_embed_error docs k
  · intro req docs k o
    rw [get_response_from_llm]
    by_cases hph : req.phase = "collection"
    · rw [if_pos hph]
      rcases o.collectionMsg with ⟨⟩ | msg
      · rfl
      · rfl
    · rw [if_neg hph, handle_qa_ops]
      exact retrieve_ops_rag o.embedResult docs k

/-- C5 counterexample: a concrete error-propagating execution of
`retrieve_top_k` (embedding failure over a one-passage store) surfaces the
error with zero aggregator operations — no failure outcome is recorded before
the error propagates, contradicting the claim. -/
theorem C5_no_failure_metrics_cex :
    retrieve_top_k (.error ()) [dentalDoc] 2 = (.error .embeddingError, []) := rfl

/-- C6 (confirmed): starting from the zero-initialised aggregate, after any
non-empty sequence of `log_rag_query` calls the stored `average_similarity`
equals the arithmetic mean of all similarity scores passed so far — the
incremental update `newMean = (oldMean*(n-1) + x)/n` computes exactly the
full-history mean, exact over ℚ. -/
theorem C6_incremental_mean (inputs : List (ℚ × Bool)) (h : inputs ≠ []) :
    (ragFold inputs).rag_queries.average_similarity =
      ((inputs.map Prod.fst).sum) / (inputs.length : ℚ) := by
  obtain ⟨_, h2⟩ := ragFold_invariant inputs
  have hn : ((inputs.length : ℚ)) ≠ 0 := by
    have hlen : inputs.length ≠ 0 := fun h0 => h (List.length_eq_zero.mp h0)
    exact_mod_cast hlen
  rw [eq_div_iff hn]
  exact h2

/-- C6 witness: two concrete calls with scores 1/2 and 3/4. -/
theorem C6_incremental_mean_witness :
    (ragFold [((1 : ℚ) / 2, true), ((3 : ℚ) / 4, false)]).rag_queries.average_similarity =
      (([((1 : ℚ) / 2, true), ((3 : ℚ) / 4, false)].map Prod.fst).sum) /
        (([((1 : ℚ) / 2, true), ((3 : ℚ) / 4, false)] : List (ℚ × Bool)).length : ℚ) :=
  C6_incremental_mean [((1 : ℚ) / 2, true), ((3 : ℚ) / 4, false)] (by simp)

/-- C7 (amended): `load_embeddings` fails exactly when the source is
missing/unreadable (IO error) or some line is not valid JSON; every record
that parses as JSON is loaded as-is — required fields and the numeric-vector
shape of the embedding are not checked at load time (the counterexample loads
a record violating the corpus contract without error). -/
theorem C7_load_json_only :
    load_embeddings none = .error .ioError ∧
    (∀ (pre post : List (Option Json)),
      load_embeddings (some (pre ++ none :: post)) = .error .jsonDecodeError) ∧
    (∀ recs : List Json, load_embeddings (some (recs.map some)) = .ok recs) := by
  refine ⟨rfl, ?_, ?_⟩
  · intro pre post
    simp [load_embeddings, seqParsed_has_none]
  · intro recs
    simp [load_embeddings, seqParsed_map_some]

/-- C7 counterexample: a record that parses as JSON but has none of the
required fields loads successfully — the claim says such a source must raise
`LoadError` and produce no store. -/
theorem C7_load_json_only_cex :
    load_embeddings (some [some (Json.obj [])]) = .ok [Json.obj []] ∧
    isValidRecord (Json.obj []) = false :=
  ⟨rfl, rfl⟩

/-- C8 (amended): the /metrics read operation returns the live metrics
dictionary itself, never a copy: a mutation through the returned reference is
a mutation of the aggregator's internal state, and an aggregator update
performed after the read is visible through the previously returned
reference. -/
theorem C8_live_reference (h : Heap) (v : Metrics) :
    heapRead (heapWrite h (get_metrics h) v) monitoring_addr = v ∧
    heapRead (heapWrite h monitoring_addr v) (get_metrics h) = v := by
  constructor <;> simp [heapRead, heapWrite, get_metrics]

/-- C8 counterexample: mutating the value returned by the read operation does
not leave the aggregator's counters unchanged — writing through the returned
reference changes what the aggregator's address holds. -/
theorem C8_live_reference_cex :
    heapRead (heapWrite heap0 (get_metrics heap0) metrics5) monitoring_addr = metrics5 ∧
    heapRead heap0 monitoring_addr ≠ metrics5 := by
  constructor
  · rfl
  · decide

/-- C9 (confirmed): the Answering state is absorbing — on any turn whose
incoming phase is not `"collection"`, a successful orchestrator result never
sets `phase_transition` to `True` (the key is absent, defaulting to `False`
in `ChatResponse`, or is explicitly `False`) and never carries a profile
record in `user_info`, so no transition back to the collection phase
occurs. -/
theorem C9_answering_absorbing (req : ChatRequest) (docs : List Passage) (k : ℕ)
    (o : TurnOracles) (d : PyDict) (hph : req.phase ≠ "collection")
    (hok : (get_response_from_llm req docs k o).1 = .ok d) :
    d.phase_transition ≠ some true ∧ d.user_info = none := by
  rw [get_response_from_llm, if_neg hph] at hok
  exact handle_qa_no_transition o.embedResult docs k o.qaCompletion d hok

/-- C9 witness: a concrete QA-phase turn (no-match path). -/
theorem C9_answering_absorbing_witness :
    (⟨some NO_MATCH_MESSAGE, none, none⟩ : PyDict).phase_transition ≠ some true ∧
    (⟨some NO_MATCH_MESSAGE, none, none⟩ : PyDict).user_info = none :=
  C9_answering_absorbing qaReq [optomDoc] 2 qaOracles ⟨some NO_MATCH_MESSAGE, none, none⟩
    (by decide) (by rw [get_response_qa_no_match])

/-- C10 (confirmed): against a non-empty store with positive `k`,
`retrieve_top_k` succeeds with a non-empty list (scored passages or the single
`no_match` sentinel), and the QA handler distinguishes the two outcomes solely
by whether the first element's domain equals `"no_match"`: any successful
retrieval whose head has that domain takes the fallback branch — answer is the
head's text and zero completion calls are made — so a genuine corpus passage
whose domain is literally `"no_match"` is indistinguishable from the sentinel
(the witness exhibits exactly that passage). -/
theorem C10_nonempty_and_domain_dispatch :
    (∀ (qv : List ℝ) (docs : List Passage) (k : ℕ), docs ≠ [] → 1 ≤ k →
      ∃ res ops, retrieve_top_k (.ok qv) docs k = (.ok res, ops) ∧ res ≠ []) ∧
    (∀ (e : Except Unit (List ℝ)) (docs : List Passage) (k : ℕ) (c : Except Unit String)
        (d0 : ScoredDoc) (rest : List ScoredDoc) (ops : List MetricsOp),
      retrieve_top_k e docs k = (.ok (d0 :: rest), ops) → d0.domain = "no_match" →
      handle_qa_phase e docs k c = (.ok ⟨some d0.text, none, none⟩, ops, 0)) := by
  constructor
  · intro qv docs k hne hk
    by_cases hrel : relevantOf (scoreDocs qv docs) = []
    · refine ⟨[noMatchDoc], _, retrieve_top_k_no_match qv docs k hne hrel, by simp⟩
    · refine ⟨(sortDesc (relevantOf (scoreDocs qv docs))).take k, _,
        retrieve_top_k_matched qv docs k hrel, ?_⟩
      have hlen : 0 < ((sortDesc (relevantOf (scoreDocs qv docs))).take k).length := by
        rw [List.length_take, sortDesc, List.length_insertionSort]
        exact lt_min hk (List.length_pos.mpr hrel)
      exact List.length_pos.mp hlen
  · intro e docs k c d0 rest ops hret hdom
    unfold handle_qa_phase
    split
    · next heq => rw [hret] at heq; simp at heq
    · next heq => rw [hret] at heq; simp at heq
    · next d0' rest' ops' heq =>
      rw [hret] at heq
      simp only [Prod.mk.injEq, Except.ok.injEq, List.cons.injEq] at heq
      obtain ⟨⟨h0, hr⟩, hop⟩ := heq
      subst h0
      subst hr
      subst hop
      rw [if_pos hdom]

/-- C10 witness: a genuine corpus passage whose domain is `"no_match"` clears
the threshold, heads the retrieval result, and is treated exactly like the
sentinel — its text becomes the answer and no completion call is made. -/
theorem C10_nonempty_and_domain_dispatch_witness :
    handle_qa_phase (.ok [1, 0]) [noMatchNamedPassage] 2 (.ok "llm answer") =
      (.ok ⟨some "a genuine corpus passage", none, none⟩,
       [MetricsOp.ragQuery (pyMaxScore (scoreDocs [1, 0] [noMatchNamedPassage])) true], 0) :=
  C10_nonempty_and_domain_dispatch.2 (.ok [1, 0]) [noMatchNamedPassage] 2 (.ok "llm answer")
    ⟨0, "no_match", "a genuine corpus passage", 1⟩ [] _ retrieve_fake rfl

end HmoChatbot
